import Mathlib

/-!
# Electastic renderer — verified shallow embedding

Shallow embedding of the renderer-side logic of the Electastic desktop
application (chat panel, connection module, admin panel, map panel),
translated from `src/renderer/components/ChatPanel.tsx` (which also carries
the connection module `createConnection` / `reconnectBle` / `safeDisconnect`),
`AdminPanel.tsx`, and `MapPanel.tsx`.

Modelling conventions:
* JavaScript strings are Lean `String`s; the character-level operations the
  code uses (`toLowerCase`, `includes`, `trim`, `startsWith`, regex prefix and
  trailing-slash stripping) are defined over `String.data` char lists so that
  the kernel can evaluate them on concrete inputs.
* Optional numeric fields of a message (`to`, `emoji`, `replyId`, `packetId`)
  are `Option Nat`; JavaScript truthiness of such a field (`!m.«to»`,
  `msg.emoji && msg.replyId`) is `truthyNum`, which is false exactly on
  `none` (undefined) and `some 0` (the number 0), matching JS semantics.
* `Map<number, T>` values with `get(k) ?? default` access are modelled as
  total functions with the default built in.
* Latitude/longitude floats only ever occur in the claims as compared to `0`
  or passed through; they are modelled as `Int` (no float arithmetic occurs).
* Async effects (stream closes, GATT disconnects, sleeps, handler calls) are
  recorded in explicit effect traces; a thrown exception is an `Except.error`
  carrying the message string.
-/

namespace Electastic

/-! ## Character-level string operations (JS semantics on `String.data`) -/

/-- JS `sub ⊆ s` substring test (`String.prototype.includes`), on char lists. -/
def includesB (l sub : List Char) : Bool := decide (sub <:+: l)

/-- JS `String.prototype.toLowerCase` (ASCII-faithful, charwise). -/
def lowerStr (s : String) : List Char := s.data.map Char.toLower

/-- Source `s.includes(sub)`, case sensitive, as the JS code calls it on strings. -/
def strIncludes (s sub : String) : Bool := includesB s.data sub.data

/-- JS whitespace for `String.prototype.trim` (the characters that occur). -/
def jsWhitespace (c : Char) : Bool := c = ' ' || c = '\t' || c = '\n' || c = '\r'

/-- JS `String.prototype.trim` on char lists. -/
def trimChars (l : List Char) : List Char :=
  ((l.dropWhile jsWhitespace).reverse.dropWhile jsWhitespace).reverse

/-- JS `String.prototype.startsWith` on char lists. -/
def startsWithB (l p : List Char) : Bool := List.isPrefixOf p l

/-! ## Chat data model

`ChatMessage` as consumed by `ChatPanel.tsx` (fields from
`src/renderer/lib/types`): numeric sender id, sender name, text payload,
channel index, millisecond timestamp, and the optional numeric fields
`to` (DM destination), `emoji` (reaction codepoint), `replyId`
(referenced packet), `packetId`. -/

structure ChatMessage where
  sender_id : Nat
  sender_name : String
  payload : String
  channel : Nat
  timestamp : Nat
  «to» : Option Nat
  emoji : Option Nat
  replyId : Option Nat
  packetId : Option Nat
deriving DecidableEq, Repr, Inhabited

/-- JS truthiness of an optional number field: `undefined` and `0` are falsy. -/
def truthyNum : Option Nat → Bool
  | none => false
  | some n => n != 0

/-- A message is a reaction iff `msg.emoji && msg.replyId` is truthy
(it carries both an emoji code and a replyId). -/
def isReaction (m : ChatMessage) : Bool := truthyNum m.emoji && truthyNum m.replyId

/-- One recorded reaction: `{ emoji, sender_name }` as pushed by the loop. -/
structure ReactionEntry where
  emoji : Nat
  sender_name : String
deriving DecidableEq, Repr

/-- The loop body of the `regularMessages / reactionsByReplyId` `useMemo`:
reaction messages are appended to the `reactions` map under their `replyId`,
all other messages are appended to `regular`. -/
def splitStep (acc : List ChatMessage × (Nat → List ReactionEntry))
    (msg : ChatMessage) : List ChatMessage × (Nat → List ReactionEntry) :=
  if truthyNum msg.emoji && truthyNum msg.replyId then
    let r := msg.replyId.getD 0
    (acc.1, fun k => if k = r then acc.2 r ++ [⟨msg.emoji.getD 0, msg.sender_name⟩] else acc.2 k)
  else
    (acc.1 ++ [msg], acc.2)

/-- Source loop `for (const msg of messages)` of the split `useMemo`. -/
def splitMessages (messages : List ChatMessage) :
    List ChatMessage × (Nat → List ReactionEntry) :=
  messages.foldl splitStep ([], fun _ => [])

/-- Source `regularMessages`: the non-reaction messages, in order. -/
def regularMessages (messages : List ChatMessage) : List ChatMessage :=
  (splitMessages messages).1

/-- Source `reactionsByReplyId`: reactions keyed by the referenced packet id
(`get` on a missing key gives `[]`, matching `reactions.get(id) || []`). -/
def reactionsByReplyId (messages : List ChatMessage) : Nat → List ReactionEntry :=
  (splitMessages messages).2

/-- The two-section view mode of the chat panel. -/
inductive ViewMode
  | channels
  | dm
deriving DecidableEq, Repr

/-- DM-mode predicate: `(m.«to» === activeDmNode && m.sender_id === myNodeNum) ||
(m.sender_id === activeDmNode && m.«to» === myNodeNum)`. -/
def dmPred (activeDmNode myNodeNum : Nat) (m : ChatMessage) : Bool :=
  (m.«to» == some activeDmNode && m.sender_id == myNodeNum) ||
  (m.sender_id == activeDmNode && m.«to» == some myNodeNum)

/-- Channel-mode predicate: `!m.«to» && (channel === -1 || m.channel === channel)`
(`-1` is the "All" selector). -/
def channelPred (channel : Int) (m : ChatMessage) : Bool :=
  !truthyNum m.«to» && (channel == -1 || (m.channel : Int) == channel)

/-- Search predicate: `m.payload.toLowerCase().includes(q) ||
m.sender_name.toLowerCase().includes(q)` with `q = searchQuery.toLowerCase()`. -/
def searchPred (searchQuery : String) (m : ChatMessage) : Bool :=
  includesB (lowerStr m.payload) (lowerStr searchQuery) ||
  includesB (lowerStr m.sender_name) (lowerStr searchQuery)

/-- Source `filteredMessages` of `ChatPanel.tsx`: mode filter over the regular
messages, then the search filter when `searchQuery.trim()` is nonempty. -/
def filteredMessages (messages : List ChatMessage) (viewMode : ViewMode)
    (activeDmNode : Option Nat) (myNodeNum : Nat) (channel : Int)
    (searchQuery : String) : List ChatMessage :=
  let regular := regularMessages messages
  let msgs :=
    match viewMode, activeDmNode with
    | ViewMode.dm, some d => regular.filter (dmPred d myNodeNum)
    | ViewMode.dm, none => regular.filter (channelPred channel)
    | ViewMode.channels, _ => regular.filter (channelPred channel)
  if trimChars searchQuery.data ≠ [] then
    msgs.filter (searchPred searchQuery)
  else
    msgs

/-! ## Unread counts (C7)

The `unreadCounts` effect recomputes, from the regular messages, a per-channel
count of messages from other nodes, with no DM destination, whose timestamp is
later than that channel's last-read time (`lastReadRef.get(ch) ?? 0`); the
mark-as-read effect sets the viewed channel's last-read time to now and
deletes its entry from the counts map. Maps are modelled as total functions
with default 0. -/

/-- Loop body of the unread-count recomputation. -/
def unreadStep (myNodeNum : Nat) (lastRead : Nat → Nat)
    (counts : Nat → Nat) (m : ChatMessage) : Nat → Nat :=
  if m.sender_id == myNodeNum then counts
  else if truthyNum m.«to» then counts
  else if lastRead m.channel < m.timestamp then
    fun c => if c = m.channel then counts c + 1 else counts c
  else counts

/-- Source `unreadCounts` recomputation over the regular messages. -/
def computeUnreadCounts (msgs : List ChatMessage) (myNodeNum : Nat)
    (lastRead : Nat → Nat) : Nat → Nat :=
  msgs.foldl (unreadStep myNodeNum lastRead) (fun _ => 0)

/-- Last-read times plus displayed unread counts (`get(ch) ?? 0` semantics). -/
structure ReadState where
  lastRead : Nat → Nat
  counts : Nat → Nat

/-- The mark-as-read effect for the channel being viewed in channel mode:
`lastReadRef.current.set(channel, now)` and `next.delete(channel)`. -/
def markChannelRead (st : ReadState) (channel now : Nat) : ReadState :=
  { lastRead := fun c => if c = channel then now else st.lastRead c,
    counts := fun c => if c = channel then 0 else st.counts c }

/-! ## Day separators and day labels (C8)

`getDayKey` builds the string `` `${y}-${m}-${d}` `` from the local calendar
components of a timestamp; distinct (year, month, day) triples give distinct
strings (the components are digit runs separated by dashes), so the key is
modelled as the triple itself. The local calendar is timezone dependent, so
it enters the model as a parameter `localDate : Nat → LocalDay`; the local
midnight of a day (`new Date(y, m, d).getTime()`) likewise enters as
`dayStartMs : LocalDay → Int`. -/

/-- A local calendar day: `getFullYear()`, `getMonth()`, `getDate()`. -/
structure LocalDay where
  year : Nat
  month : Nat
  day : Nat
deriving DecidableEq, Repr

/-- Source `getDayKey`: the local calendar day of a timestamp (see section comment
for the string-key encoding). -/
def getDayKey (localDate : Nat → LocalDay) (ts : Nat) : LocalDay := localDate ts

/-- The `daySeparatorIndices` loop: `prevDayKey` starts as the empty string
(`none`, matching no real key) and an index is added exactly when the
message's key differs from `prevDayKey`, which is then updated. -/
def daySepAux (localDate : Nat → LocalDay) :
    List ChatMessage → Option LocalDay → Nat → List Nat
  | [], _, _ => []
  | m :: rest, prev, i =>
    let k := getDayKey localDate m.timestamp
    if some k ≠ prev then i :: daySepAux localDate rest (some k) (i + 1)
    else daySepAux localDate rest prev (i + 1)

/-- Source `daySeparatorIndices` over the filtered message list. -/
def daySeparatorIndices (localDate : Nat → LocalDay) (msgs : List ChatMessage) :
    List Nat :=
  daySepAux localDate msgs none 0

/-- The three outcomes of `formatDayLabel`; `date d` stands for the
locale-formatted date of the message's local day. -/
inductive DayLabel
  | today
  | yesterday
  | date (d : LocalDay)
deriving DecidableEq, Repr

/-- Source `formatDayLabel`: compares the local midnight of `now` with the local
midnight of the message's day; difference 0 is "Today", exactly 86 400 000 ms
is "Yesterday", anything else a locale-formatted date. -/
def formatDayLabel (localDate : Nat → LocalDay) (dayStartMs : LocalDay → Int)
    (now ts : Nat) : DayLabel :=
  let msgDay := localDate ts
  let todayDay := localDate now
  let diff := dayStartMs todayDay - dayStartMs msgDay
  if diff = 0 then DayLabel.today
  else if diff = 86400000 then DayLabel.yesterday
  else DayLabel.date msgDay

/-! ## Connection module (C1, C2, C3)

`createConnection`, `reconnectBle` and `safeDisconnect` from the connection
module bundled with `ChatPanel.tsx`. Browser Bluetooth state
(`navigator.bluetooth.getDevices()`, GATT servers) and the transport
library's optional static methods are inputs; stream/GATT operations are
recorded as effects. -/

/-- A GATT server as seen through `d.gatt`: its `connected` flag, and whether
its `disconnect()` call would throw (such throws are always swallowed). -/
structure BtGatt where
  connected : Bool
  disconnectThrows : Bool
deriving DecidableEq, Repr

/-- A `BluetoothDevice` from `navigator.bluetooth.getDevices()`: `gatt` may
be absent. An `id` distinguishes devices. -/
structure BleDevice where
  id : Nat
  gatt : Option BtGatt
deriving DecidableEq, Repr

/-- Test `d.gatt && !d.gatt.connected`: the device has a disconnected GATT. -/
def hasDisconnectedGatt (d : BleDevice) : Bool :=
  match d.gatt with
  | some g => !g.connected
  | none => false

/-- Test `d.gatt != null`. -/
def hasGatt (d : BleDevice) : Bool := d.gatt.isSome

/-- Test `d.gatt?.connected` is truthy. -/
def gattConnected (d : BleDevice) : Bool :=
  match d.gatt with
  | some g => g.connected
  | none => false

/-- A created transport value (opaque to the renderer beyond identity and the
stashed `__bluetoothDevice`). -/
structure BleTransport where
  id : Nat
deriving DecidableEq, Repr

/-- What `createConnection` hands to `new MeshDevice(transport)`: which
transport was created with which arguments. For BLE the captured
`__bluetoothDevice` (the first device from `getDevices()` whose
`gatt?.connected` is truthy, if the lookup did not throw) is carried along. -/
inductive TransportSpec
  | bleT (captured : Option BleDevice)
  | serialT (baudRate : Nat)
  | httpT (address : String) (tls : Bool)
deriving DecidableEq, Repr

/-- The regex `^https?:\/\//` replacement: strips one leading `http://` or
`https://`. -/
def stripProtocol (l : List Char) : List Char :=
  if startsWithB l "http://".data then l.drop 7
  else if startsWithB l "https://".data then l.drop 8
  else l

/-- The regex `\/+$/` replacement: strips all trailing slashes. -/
def stripTrailingSlashes (l : List Char) : List Char :=
  (l.reverse.dropWhile (fun c => c = '/')).reverse

/-- Source `createConnection(type, httpAddress)`. The connection type is the string
it is switched on; `httpAddress` is `none` for `undefined` and `some ""` for
the empty string (both falsy, both rejected); `getDevices` is the result of
the BLE branch's `navigator.bluetooth.getDevices()` (`none` when it throws,
in which case the capture is skipped). -/
def createConnection (ctype : String) (httpAddress : Option String)
    (getDevices : Option (List BleDevice)) : Except String TransportSpec :=
  if ctype = "ble" then
    let captured :=
      match getDevices with
      | some devices => devices.find? gattConnected
      | none => none
    Except.ok (TransportSpec.bleT captured)
  else if ctype = "serial" then
    Except.ok (TransportSpec.serialT 115200)
  else if ctype = "http" then
    match httpAddress with
    | none => Except.error "HTTP address required"
    | some a =>
      if a = "" then Except.error "HTTP address required"
      else
        let host := trimChars a.data
        let useTls := startsWithB host "https://".data
        let host := stripTrailingSlashes (stripProtocol host)
        Except.ok (TransportSpec.httpT (String.mk host) useTls)
  else
    Except.error ("Unknown connection type: " ++ ctype)

/-- Side effects of `reconnectBle` before the transport is created. -/
inductive RcEffect
  | gattDisconnect
  | sleep (ms : Nat)
deriving DecidableEq, Repr

/-- The environment `reconnectBle` runs in: the granted devices, whether the
transport library exposes `createFromDevice` / `prepareConnection`, and what
the exposed method returns (`none` models a null/undefined transport). -/
structure BleEnv where
  devices : List BleDevice
  hasCreateFromDevice : Bool
  hasPrepareConnection : Bool
  createFromDeviceResult : Option BleTransport
  prepareConnectionResult : Option BleTransport
deriving DecidableEq, Repr

/-- Successful outcome of `reconnectBle`: the selected device, the transport
(with the device stashed on it), and the pre-connection effects. -/
structure ReconnectOutcome where
  target : BleDevice
  transport : BleTransport
  effects : List RcEffect
deriving DecidableEq, Repr

/-- The device-selection expression of `reconnectBle`:
`devices.find(d => d.gatt && !d.gatt.connected) ?? devices.find(d => d.gatt != null)`. -/
def bleTarget (devices : List BleDevice) : Option BleDevice :=
  (devices.find? hasDisconnectedGatt).orElse (fun _ => devices.find? hasGatt)

/-- Source `reconnectBle()`: pick a device from `getDevices()` (a disconnected GATT
preferred, else any device with GATT, else throw); force-disconnect a still
connected GATT and wait 500 ms; create the transport via `createFromDevice`
or `prepareConnection` (throw when neither exists or the result is null). -/
def reconnectBle (env : BleEnv) : Except String ReconnectOutcome :=
  match bleTarget env.devices with
  | none => Except.error "No previously connected BLE device found for reconnection"
  | some target =>
    let effects :=
      if gattConnected target then [RcEffect.gattDisconnect, RcEffect.sleep 500]
      else []
    let result : Except String (Option BleTransport) :=
      if env.hasCreateFromDevice then Except.ok env.createFromDeviceResult
      else if env.hasPrepareConnection then Except.ok env.prepareConnectionResult
      else Except.error
        "TransportWebBluetooth has no method to create a transport from an existing device"
    match result with
    | Except.error e => Except.error e
    | Except.ok none => Except.error "Failed to create BLE transport for reconnection"
    | Except.ok (some t) => Except.ok ⟨target, t, effects⟩

/-! ### `safeDisconnect` (C1) -/

/-- The state of a `MeshDevice` as `safeDisconnect` observes it:
the outcome of `device.disconnect()` (`none` = resolves, `some msg` = throws
with message `msg`), whether `transport.toDevice.close()` throws, the
captured `__bluetoothDevice` (if any), and whether `device.complete()`
throws. -/
structure MeshDeviceModel where
  disconnectOutcome : Option String
  closeThrows : Bool
  btDevice : Option BleDevice
  completeThrows : Bool
deriving DecidableEq, Repr

/-- The observable operations `safeDisconnect` attempts, in order. -/
inductive DEffect
  | disconnectCall
  | closeToDevice
  | gattDisconnectCall
  | warn (msg : String)
  | complete
deriving DecidableEq, Repr

/-- The message test of the catch branch: `msg.includes("not a function") ||
msg.includes("already been closed") || msg.includes("locked")`. -/
def quirkMessage (msg : String) : Bool :=
  strIncludes msg "not a function" ||
  strIncludes msg "already been closed" ||
  strIncludes msg "locked"

/-- Test `btDevice?.gatt?.connected` on the captured device. -/
def capturedGattConnected : Option BleDevice → Bool
  | some d => gattConnected d
  | none => false

/-- Source `safeDisconnect(device)`: the trace of attempted operations and whether
the call itself throws. Every branch is wrapped in try/catch and the
`finally` always attempts `device.complete()`, so the `Bool` is
structurally `false`. -/
def safeDisconnect (d : MeshDeviceModel) : List DEffect × Bool :=
  match d.disconnectOutcome with
  | none =>
    ([DEffect.disconnectCall, DEffect.complete], false)
  | some msg =>
    if quirkMessage msg then
      let gattFx :=
        if capturedGattConnected d.btDevice then [DEffect.gattDisconnectCall] else []
      ([DEffect.disconnectCall, DEffect.closeToDevice] ++ gattFx ++ [DEffect.complete],
        false)
    else
      ([DEffect.disconnectCall, DEffect.warn msg, DEffect.complete], false)

/-! ## Admin panel confirmation flow (C4)

`AdminPanel.tsx`: each command button calls `executeWithConfirmation`, which
only stores a `PendingAction` in the single `pendingAction` state slot; the
modal's confirm button calls `handleConfirm` (clear the slot, then run the
stored action); Cancel and the backdrop both call `setPendingAction(null)`.
The Remove Node button first parses the target and only opens the dialog for
a nonzero target (otherwise it toasts). Device handlers are identified by
which callback the stored `action` closure invokes. -/

/-- The device handler a pending action's closure would invoke. -/
inductive AdminHandler
  | hReboot (seconds : Nat)
  | hShutdown (seconds : Nat)
  | hResetNodeDb
  | hFactoryReset
  | hRemoveNode (nodeNum : Nat)
deriving DecidableEq, Repr

/-- A `PendingAction` as stored by `executeWithConfirmation` (display fields
that only feed the modal text are represented by `name`). -/
structure PendingAction where
  name : String
  danger : Bool
  handler : AdminHandler
deriving DecidableEq, Repr

/-- UI events on the admin panel relevant to the confirmation flow. -/
inductive AdminEvent
  | clickReboot
  | clickShutdown
  | clickResetNodeDb
  | clickFactoryReset
  | clickRemoveNode (target : Nat)
  | confirmPress
  | cancelPress
  | backdropClick
deriving DecidableEq, Repr

/-- The component state relevant to the flow: the single pending-action slot. -/
structure AdminState where
  pendingAction : Option PendingAction
deriving DecidableEq, Repr

/-- One UI event: the next state and the device handler invoked (if any).
Command clicks store the pending action; `confirmPress` is `handleConfirm`
(no-op without a pending action, otherwise clear the slot and invoke);
`cancelPress` and `backdropClick` both run `onCancel`. -/
def adminStep (s : AdminState) : AdminEvent → AdminState × Option AdminHandler
  | AdminEvent.clickReboot =>
    (⟨some ⟨"Reboot", false, AdminHandler.hReboot 2⟩⟩, none)
  | AdminEvent.clickShutdown =>
    (⟨some ⟨"Shutdown", false, AdminHandler.hShutdown 2⟩⟩, none)
  | AdminEvent.clickResetNodeDb =>
    (⟨some ⟨"Reset NodeDB", false, AdminHandler.hResetNodeDb⟩⟩, none)
  | AdminEvent.clickFactoryReset =>
    (⟨some ⟨"Factory Reset", true, AdminHandler.hFactoryReset⟩⟩, none)
  | AdminEvent.clickRemoveNode target =>
    if target ≠ 0 then
      (⟨some ⟨"Remove Node", false, AdminHandler.hRemoveNode target⟩⟩, none)
    else (s, none)
  | AdminEvent.confirmPress =>
    match s.pendingAction with
    | none => (s, none)
    | some p => (⟨none⟩, some p.handler)
  | AdminEvent.cancelPress => (⟨none⟩, none)
  | AdminEvent.backdropClick => (⟨none⟩, none)

/-! ## Map panel (C5, C9)

`MapPanel.tsx`. Coordinates are modelled as `Int` (e.g. degrees scaled by
10⁴); the only operations on them are equality with 0 and pass-through. -/

/-- A `MeshNode` as consumed by `MapPanel.tsx`. -/
structure MeshNode where
  node_id : Nat
  long_name : String
  short_name : String
  latitude : Int
  longitude : Int
  battery : Nat
  snr : Int
  last_heard : Nat
deriving DecidableEq, Repr

/-- Node status values produced by `getNodeStatus`. -/
inductive NodeStatus
  | online
  | stale
  | offline
deriving DecidableEq, Repr

/-- A marker icon as built by `createMarkerIcon`: fill color, star (self)
versus circle shape, and pixel size. -/
structure IconSpec where
  color : String
  star : Bool
  size : Nat
deriving DecidableEq, Repr

/-- Source `createMarkerIcon(color, isSelf)`: size 32 star for self, size 25 circle
otherwise. -/
def createMarkerIcon (color : String) (isSelf : Bool) : IconSpec :=
  { color := color, star := isSelf, size := if isSelf then 32 else 25 }

/-- The `MARKERS` icon cache. -/
structure MarkerCache where
  selfOnline : IconSpec
  selfStale : IconSpec
  selfOffline : IconSpec
  online : IconSpec
  stale : IconSpec
  offline : IconSpec
deriving DecidableEq, Repr

/-- The `MARKERS` constant: green `#22c55e`, yellow `#eab308`,
gray `#6b7280`, in self and non-self variants. -/
def MARKERS : MarkerCache :=
  { selfOnline := createMarkerIcon "#22c55e" true,
    selfStale := createMarkerIcon "#eab308" true,
    selfOffline := createMarkerIcon "#6b7280" true,
    online := createMarkerIcon "#22c55e" false,
    stale := createMarkerIcon "#eab308" false,
    offline := createMarkerIcon "#6b7280" false }

/-- Source `getMarkerIcon(status, isSelf)`. -/
def getMarkerIcon (status : NodeStatus) (isSelf : Bool) : IconSpec :=
  if isSelf then
    match status with
    | NodeStatus.online => MARKERS.selfOnline
    | NodeStatus.stale => MARKERS.selfStale
    | NodeStatus.offline => MARKERS.selfOffline
  else
    match status with
    | NodeStatus.online => MARKERS.online
    | NodeStatus.stale => MARKERS.stale
    | NodeStatus.offline => MARKERS.offline

/-- Source `nodesWithPosition`: nodes with `latitude !== 0 && longitude !== 0`. -/
def nodesWithPosition (nodes : List MeshNode) : List MeshNode :=
  nodes.filter (fun n => n.latitude != 0 && n.longitude != 0)

/-- One rendered `<Marker>`: position, icon, and `zIndexOffset`. -/
structure MarkerSpec where
  node_id : Nat
  position : Int × Int
  icon : IconSpec
  zIndexOffset : Nat
deriving DecidableEq, Repr

/-- The `<Marker>` rendered for one positioned node: `isSelf` compares the
node id with `myNodeNum`, the icon comes from the node's status and `isSelf`,
and `zIndexOffset` is 1000 for self and 0 otherwise. -/
def markerOf (getNodeStatus : Nat → NodeStatus) (myNodeNum : Nat)
    (node : MeshNode) : MarkerSpec :=
  let isSelf := node.node_id == myNodeNum
  { node_id := node.node_id,
    position := (node.latitude, node.longitude),
    icon := getMarkerIcon (getNodeStatus node.last_heard) isSelf,
    zIndexOffset := if isSelf then 1000 else 0 }

/-- The marker list rendered by `MapPanel`. `getNodeStatus` lives in
`src/renderer/lib/nodeStatus` which is not part of the sources here, so it is
a parameter. Modelled from the spec: a node's status (online / stale /
offline) is computed from its last-heard time. -/
def renderMarkers (getNodeStatus : Nat → NodeStatus) (nodes : List MeshNode)
    (myNodeNum : Nat) : List MarkerSpec :=
  (nodesWithPosition nodes).map (markerOf getNodeStatus myNodeNum)

/-- The claim's status-to-color reading: green for online, yellow for stale,
gray for offline (the hex fills used by the `MARKERS` cache). -/
def statusColor : NodeStatus → String
  | NodeStatus.online => "#22c55e"
  | NodeStatus.stale => "#eab308"
  | NodeStatus.offline => "#6b7280"

/-! ### Map view persistence and auto-fit (C5)

Module-level `savedCenter` / `savedZoom` / `userHasInteracted` survive
remounts; `MapFitter`'s `lastFittedCount` is a `useRef` inside the component
and resets to 0 whenever the panel remounts. `MapViewTracker` saves the view
and sets `userHasInteracted` on the user's `moveend` / `zoomend`;
`MapFitter`'s effect runs on mount and whenever the positioned-node count
changes. (Leaflet's own event dispatch for programmatic moves is outside the
embedded source and is not modelled.) -/

/-- Constant `DEFAULT_CENTER` (40.1672, -105.1019), scaled by 10⁴. -/
def DEFAULT_CENTER : Int × Int := (401672, -1051019)

/-- Constant `DEFAULT_ZOOM`. -/
def DEFAULT_ZOOM : Nat := 12

/-- The current map view. -/
structure MapView where
  center : Int × Int
  zoom : Nat
deriving DecidableEq, Repr

/-- Session state: the three module-level variables, `MapFitter`'s
per-mount `lastFittedCount` ref, and the live view. -/
structure MapSession where
  savedCenter : Option (Int × Int)
  savedZoom : Option Nat
  userHasInteracted : Bool
  lastFittedCount : Nat
  view : MapView
deriving DecidableEq, Repr

/-- An auto-fit action: `flyTo` a single position at the current zoom, or
`flyToBounds` of all positions. -/
inductive FitAction
  | flyTo (pos : Int × Int) (zoom : Nat)
  | flyToBounds (positions : List (Int × Int))
deriving DecidableEq, Repr

/-- Events driving the map session. -/
inductive MapEvent
  | userMoveZoom (center : Int × Int) (zoom : Nat)
  | positionsChanged (positions : List (Int × Int))
  | remount (positions : List (Int × Int))
deriving DecidableEq, Repr

/-- Source `MapFitter` effect body: bail if the user has interacted, there are no
positions, or the count has not grown beyond `lastFittedCount`; otherwise
record the count and fly. -/
def attemptFit (s : MapSession) (positions : List (Int × Int)) :
    MapSession × Option FitAction :=
  if s.userHasInteracted then (s, none)
  else if positions.length = 0 then (s, none)
  else if positions.length ≤ s.lastFittedCount then (s, none)
  else
    let s' := { s with lastFittedCount := positions.length }
    match positions with
    | [p] => (s', some (FitAction.flyTo p s.view.zoom))
    | _ => (s', some (FitAction.flyToBounds positions))

/-- The session state right after `MapContainer` is re-created on a remount:
`center={savedCenter ?? center}` and `zoom={savedZoom ?? DEFAULT_ZOOM}` (with
the fallback center the first positioned node, or the default), and
`MapFitter`'s `lastFittedCount` ref fresh at 0. -/
def remountState (s : MapSession) (ps : List (Int × Int)) : MapSession :=
  let fallbackCenter := match ps with
    | p :: _ => p
    | [] => DEFAULT_CENTER
  { s with
    lastFittedCount := 0
    view := ⟨s.savedCenter.getD fallbackCenter, s.savedZoom.getD DEFAULT_ZOOM⟩ }

/-- One session step. `userMoveZoom` is the `moveend`/`zoomend` handler of
`MapViewTracker`; `positionsChanged` re-runs `MapFitter`'s effect;
`remount` re-creates `MapContainer` and runs the fitter effect once. -/
def mapStep (s : MapSession) : MapEvent → MapSession × Option FitAction
  | MapEvent.userMoveZoom c z =>
    ({ s with
        savedCenter := some c
        savedZoom := some z
        userHasInteracted := true
        view := ⟨c, z⟩ }, none)
  | MapEvent.positionsChanged ps => attemptFit s ps
  | MapEvent.remount ps => attemptFit (remountState s ps) ps

/-- The state before the map panel is first shown. -/
def initialMapSession : MapSession :=
  ⟨none, none, false, 0, ⟨DEFAULT_CENTER, DEFAULT_ZOOM⟩⟩

/-- Run a list of events. -/
def runMap (s : MapSession) : List MapEvent → MapSession
  | [] => s
  | e :: es => runMap (mapStep s e).1 es

/-! ## DM tab persistence (C10)

`openDmTabs` is initialized from `localStorage` key `electastic:openDmTabs`
(JSON-parsed, accepted only when the result is an array whose elements are
all numbers) and written back under the same key on every change.
`localStorage` is modelled as a map from keys to an optional JSON value;
`none` stands for a missing key or a string `JSON.parse` rejects
(serialization itself round-trips JSON values). -/

/-- JSON values as relevant here (node numbers are integers). -/
inductive Json
  | num (n : Int)
  | str (s : String)
  | jbool (b : Bool)
  | jnull
  | arr (elems : List Json)

/-- Validation `parsed.every((n) => typeof n === "number")` plus extraction: `some` of
the numbers when every element is a number. -/
def asNumList : List Json → Option (List Int)
  | [] => some []
  | Json.num n :: rest => (asNumList rest).map (fun ns => n :: ns)
  | Json.str _ :: _ => none
  | Json.jbool _ :: _ => none
  | Json.jnull :: _ => none
  | Json.arr _ :: _ => none

/-- The `useState` initializer: accept a stored JSON array of numbers, fall
back to `[]` on missing, malformed, or wrongly-typed data. -/
def loadDmTabs (stored : Option Json) : List Int :=
  match stored with
  | some (Json.arr xs) =>
    match asNumList xs with
    | some ns => ns
    | none => []
  | _ => []

/-- Serialization `JSON.stringify(openDmTabs)` as a JSON value. -/
def saveDmTabs (tabs : List Int) : Json := Json.arr (tabs.map Json.num)

/-- The storage key. -/
def dmTabsKey : String := "electastic:openDmTabs"

/-- The persistence effect: after any change to `openDmTabs`, the store maps
`dmTabsKey` to the serialized list and every other key is untouched. -/
def persistDmTabs (store : String → Option Json) (tabs : List Int) :
    String → Option Json :=
  fun k => if k = dmTabsKey then some (saveDmTabs tabs) else store k

/-- A freshly mounted chat panel's initial `openDmTabs`. -/
def initialDmTabs (store : String → Option Json) : List Int :=
  loadDmTabs (store dmTabsKey)

/-! ## Theorems -/

/-! ### Message split (helpers for C6 and C7) -/

theorem foldl_splitStep_fst (messages : List ChatMessage)
    (acc : List ChatMessage × (Nat → List ReactionEntry)) :
    (messages.foldl splitStep acc).1 =
      acc.1 ++ messages.filter (fun m => !isReaction m) := by
  induction messages generalizing acc with
  | nil => simp
  | cons m rest ih =>
    rw [List.foldl_cons, ih]
    unfold splitStep
    cases hA : truthyNum m.emoji <;> cases hB : truthyNum m.replyId <;>
      simp [List.filter_cons, isReaction, hA, hB]

theorem regularMessages_eq_filter (messages : List ChatMessage) :
    regularMessages messages = messages.filter (fun m => !isReaction m) := by
  unfold regularMessages splitMessages
  rw [foldl_splitStep_fst]
  simp

theorem foldl_splitStep_snd (messages : List ChatMessage)
    (acc : List ChatMessage × (Nat → List ReactionEntry)) (r : Nat) :
    (messages.foldl splitStep acc).2 r =
      acc.2 r ++ (messages.filter
          (fun m => isReaction m && m.replyId.getD 0 == r)).map
        (fun m => (⟨m.emoji.getD 0, m.sender_name⟩ : ReactionEntry)) := by
  induction messages generalizing acc with
  | nil => simp
  | cons m rest ih =>
    rw [List.foldl_cons, ih]
    unfold splitStep
    by_cases hr : m.replyId.getD 0 = r
    · cases hA : truthyNum m.emoji <;> cases hB : truthyNum m.replyId <;>
        simp [List.filter_cons, isReaction, hA, hB, hr]
    · cases hA : truthyNum m.emoji <;> cases hB : truthyNum m.replyId <;>
        simp [List.filter_cons, isReaction, hA, hB, hr, Ne.symm hr]

theorem filteredAux_eq (messages : List ChatMessage) (p : ChatMessage → Bool)
    (q : String) :
    (if trimChars q.data ≠ [] then
        ((regularMessages messages).filter p).filter (searchPred q)
      else (regularMessages messages).filter p) =
      messages.filter (fun m => !isReaction m && p m &&
        ((trimChars q.data).isEmpty || searchPred q m)) := by
  rw [regularMessages_eq_filter]
  by_cases h : trimChars q.data = []
  · have hE : (trimChars q.data).isEmpty = true := by simp [h]
    rw [if_neg (by simp [h]), List.filter_filter]
    apply List.filter_congr
    intro m _
    simp [hE, Bool.and_comm]
  · have hE : (trimChars q.data).isEmpty = false := by
      cases hE2 : trimChars q.data with
      | nil => exact absurd hE2 h
      | cons a l => rfl
    rw [if_pos h, List.filter_filter, List.filter_filter]
    apply List.filter_congr
    intro m _
    simp [hE, Bool.and_assoc, Bool.and_comm, Bool.and_left_comm]

/-- C6. The chat panel's message stream: in DM mode (with an active DM node)
exactly the non-reaction messages exchanged between the local node and the
active DM node, in channel mode exactly the non-reaction messages with no DM
destination on the selected channel (all channels for `-1`); with an active
search query a message is additionally kept iff its payload or sender name
contains the query case-insensitively; a message is a reaction iff it carries
both an emoji code and a replyId, and reactions are instead recorded against
the referenced packet id with their emoji and sender name. -/
theorem chat_stream_characterization :
    (∀ (messages : List ChatMessage) (d myNodeNum : Nat) (channel : Int)
        (searchQuery : String),
      filteredMessages messages ViewMode.dm (some d) myNodeNum channel searchQuery =
        messages.filter (fun m =>
          !isReaction m && dmPred d myNodeNum m &&
            ((trimChars searchQuery.data).isEmpty || searchPred searchQuery m)))
    ∧ (∀ (messages : List ChatMessage) (activeDmNode : Option Nat)
        (myNodeNum : Nat) (channel : Int) (searchQuery : String),
      filteredMessages messages ViewMode.channels activeDmNode myNodeNum channel
          searchQuery =
        messages.filter (fun m =>
          !isReaction m && channelPred channel m &&
            ((trimChars searchQuery.data).isEmpty || searchPred searchQuery m)))
    ∧ (∀ (messages : List ChatMessage) (r : Nat),
      reactionsByReplyId messages r =
        (messages.filter (fun m => isReaction m && m.replyId.getD 0 == r)).map
          (fun m => (⟨m.emoji.getD 0, m.sender_name⟩ : ReactionEntry))) := by
  refine ⟨?_, ?_, ?_⟩
  · intro messages d myNodeNum channel searchQuery
    have hrw : filteredMessages messages ViewMode.dm (some d) myNodeNum channel
        searchQuery =
        (if trimChars searchQuery.data ≠ [] then
          ((regularMessages messages).filter (dmPred d myNodeNum)).filter
            (searchPred searchQuery)
        else (regularMessages messages).filter (dmPred d myNodeNum)) := rfl
    rw [hrw, filteredAux_eq]
  · intro messages activeDmNode myNodeNum channel searchQuery
    have hrw : filteredMessages messages ViewMode.channels activeDmNode myNodeNum
        channel searchQuery =
        (if trimChars searchQuery.data ≠ [] then
          ((regularMessages messages).filter (channelPred channel)).filter
            (searchPred searchQuery)
        else (regularMessages messages).filter (channelPred channel)) := by
      cases activeDmNode <;> rfl
    rw [hrw, filteredAux_eq]
  · intro messages r
    unfold reactionsByReplyId splitMessages
    rw [foldl_splitStep_snd]
    simp

theorem foldl_unreadStep (msgs : List ChatMessage) (myNodeNum : Nat)
    (lastRead : Nat → Nat) (counts : Nat → Nat) (ch : Nat) :
    (msgs.foldl (unreadStep myNodeNum lastRead) counts) ch =
      counts ch + (msgs.filter (fun m =>
        !(m.sender_id == myNodeNum) && !truthyNum m.«to» && m.channel == ch &&
          decide (lastRead ch < m.timestamp))).length := by
  induction msgs generalizing counts with
  | nil => simp
  | cons m rest ih =>
    rw [List.foldl_cons, ih]
    unfold unreadStep
    by_cases hch : m.channel = ch
    · subst hch
      cases hs : (m.sender_id == myNodeNum) <;> cases ht : truthyNum m.«to» <;>
        by_cases hts : lastRead m.channel < m.timestamp <;>
          simp [List.filter_cons, hs, ht, hts] <;> omega
    · cases hs : (m.sender_id == myNodeNum) <;> cases ht : truthyNum m.«to» <;>
        by_cases hts : lastRead m.channel < m.timestamp <;>
          simp [List.filter_cons, hs, ht, hts, hch, Ne.symm hch]

/-- C7. A channel's recomputed unread count equals the number of non-reaction
messages with no DM destination on that channel, sent by nodes other than the
local node, whose timestamp is strictly later than that channel's last-read
time; and marking a channel read sets its last-read time to now, zeroes its
displayed count, and leaves every other channel untouched. -/
theorem unread_counts_characterization :
    (∀ (messages : List ChatMessage) (myNodeNum : Nat) (lastRead : Nat → Nat)
        (ch : Nat),
      computeUnreadCounts (regularMessages messages) myNodeNum lastRead ch =
        (messages.filter (fun m =>
          !isReaction m && !(m.sender_id == myNodeNum) && !truthyNum m.«to» &&
            m.channel == ch && decide (lastRead ch < m.timestamp))).length)
    ∧ (∀ (st : ReadState) (ch now : Nat),
      (markChannelRead st ch now).lastRead ch = now
      ∧ (markChannelRead st ch now).counts ch = 0
      ∧ ∀ c, c ≠ ch →
          (markChannelRead st ch now).lastRead c = st.lastRead c
          ∧ (markChannelRead st ch now).counts c = st.counts c) := by
  constructor
  · intro messages myNodeNum lastRead ch
    unfold computeUnreadCounts
    rw [regularMessages_eq_filter, foldl_unreadStep, List.filter_filter]
    simp only [Nat.zero_add]
    apply congrArg List.length
    apply List.filter_congr
    intro m _
    simp [Bool.and_assoc, Bool.and_comm, Bool.and_left_comm]
  · intro st ch now
    refine ⟨by simp [markChannelRead], by simp [markChannelRead], ?_⟩
    intro c hc
    simp [markChannelRead, hc]

/-- Witness for C7: marking channel 2 read zeroes its displayed count and
leaves channel 3 untouched. -/
theorem unread_counts_characterization_witness :
    (markChannelRead ⟨fun _ => 0, fun _ => 5⟩ 2 100).counts 2 = 0
    ∧ (markChannelRead ⟨fun _ => 0, fun _ => 5⟩ 2 100).counts 3 = 5 := by
  have h := unread_counts_characterization.2 ⟨fun _ => 0, fun _ => 5⟩ 2 100
  exact ⟨h.2.1, (h.2.2 3 (by decide)).2⟩

/-! ### Day separators (C8) -/

theorem daySepAux_mem (localDate : Nat → LocalDay) (msgs : List ChatMessage) :
    ∀ (prev : Option LocalDay) (i j : Nat),
    j ∈ daySepAux localDate msgs prev i ↔
      ∃ t, t < msgs.length ∧ j = i + t ∧
        some (localDate ((msgs.getD t default).timestamp)) ≠
          (if t = 0 then prev
           else some (localDate ((msgs.getD (t - 1) default).timestamp))) := by
  induction msgs with
  | nil => intro prev i j; simp [daySepAux]
  | cons m rest ih =>
    intro prev i j
    by_cases hk : some (getDayKey localDate m.timestamp) ≠ prev
    · rw [show daySepAux localDate (m :: rest) prev i =
          i :: daySepAux localDate rest (some (getDayKey localDate m.timestamp))
            (i + 1) from by rw [daySepAux, if_pos hk]]
      constructor
      · intro hj
        rcases List.mem_cons.mp hj with hj | hj
        · subst hj
          exact ⟨0, by simp, by omega, by simpa [getDayKey] using hk⟩
        · rcases (ih _ _ _).mp hj with ⟨t, ht, hjt, hne⟩
          refine ⟨t + 1, by simpa using Nat.succ_lt_succ ht, by omega, ?_⟩
          cases t with
          | zero => simpa [getDayKey] using hne
          | succ s => simpa [getDayKey] using hne
      · rintro ⟨t, ht, hjt, hne⟩
        cases t with
        | zero => exact List.mem_cons.mpr (Or.inl (by omega))
        | succ s =>
          refine List.mem_cons.mpr (Or.inr ((ih _ _ _).mpr
            ⟨s, by simpa using Nat.lt_of_succ_lt_succ ht, by omega, ?_⟩))
          cases s with
          | zero => simpa [getDayKey] using hne
          | succ u => simpa [getDayKey] using hne
    · rw [not_not] at hk
      rw [show daySepAux localDate (m :: rest) prev i =
          daySepAux localDate rest prev (i + 1) from by
        rw [daySepAux, if_neg (by simpa using hk)]]
      rw [ih]
      constructor
      · rintro ⟨t, ht, hjt, hne⟩
        refine ⟨t + 1, by simpa using Nat.succ_lt_succ ht, by omega, ?_⟩
        cases t with
        | zero =>
          have hk' : some (localDate m.timestamp) = prev := hk
          rw [show ((m :: rest).getD (0 + 1) default) = rest.getD 0 default from rfl,
            if_neg (by omega),
            show ((m :: rest).getD (0 + 1 - 1) default) = m from rfl, hk']
          simpa using hne
        | succ s => simpa [getDayKey] using hne
      · rintro ⟨t, ht, hjt, hne⟩
        cases t with
        | zero =>
          exact absurd hk (by simpa [getDayKey] using hne)
        | succ s =>
          refine ⟨s, by simpa using Nat.lt_of_succ_lt_succ ht, by omega, ?_⟩
          cases s with
          | zero =>
            have hk' : some (localDate m.timestamp) = prev := hk
            rw [if_pos rfl, ← hk']
            simpa using hne
          | succ u => simpa [getDayKey] using hne

/-- C8. A day separator precedes message `j` of the filtered list iff `j` is
in range and either `j = 0` or the local calendar day of message `j` differs
from that of message `j - 1` (so the first message of a non-empty list always
gets one); the separator label is "Today" when the message's local day is the
current day, "Yesterday" when its local midnight lies exactly 86 400 000 ms
before today's, and a locale-formatted date otherwise. -/
theorem day_separator_characterization :
    (∀ (localDate : Nat → LocalDay) (msgs : List ChatMessage) (j : Nat),
      j ∈ daySeparatorIndices localDate msgs ↔
        (j < msgs.length ∧ (j = 0 ∨
          localDate ((msgs.getD j default).timestamp) ≠
            localDate ((msgs.getD (j - 1) default).timestamp))))
    ∧ (∀ (localDate : Nat → LocalDay) (msgs : List ChatMessage),
        msgs ≠ [] → 0 ∈ daySeparatorIndices localDate msgs)
    ∧ (∀ (localDate : Nat → LocalDay) (dayStartMs : LocalDay → Int) (now ts : Nat),
        (localDate ts = localDate now →
          formatDayLabel localDate dayStartMs now ts = DayLabel.today)
        ∧ (dayStartMs (localDate now) - dayStartMs (localDate ts) = 86400000 →
          formatDayLabel localDate dayStartMs now ts = DayLabel.yesterday)
        ∧ (dayStartMs (localDate now) - dayStartMs (localDate ts) ≠ 0 →
          dayStartMs (localDate now) - dayStartMs (localDate ts) ≠ 86400000 →
          formatDayLabel localDate dayStartMs now ts = DayLabel.date (localDate ts))) := by
  have hmain : ∀ (localDate : Nat → LocalDay) (msgs : List ChatMessage) (j : Nat),
      j ∈ daySeparatorIndices localDate msgs ↔
        (j < msgs.length ∧ (j = 0 ∨
          localDate ((msgs.getD j default).timestamp) ≠
            localDate ((msgs.getD (j - 1) default).timestamp))) := by
    intro localDate msgs j
    rw [daySeparatorIndices, daySepAux_mem]
    constructor
    · rintro ⟨t, ht, hjt, hne⟩
      have hj : j = t := by omega
      subst hj
      refine ⟨ht, ?_⟩
      cases j with
      | zero => exact Or.inl rfl
      | succ s =>
        right
        intro hEq
        apply hne
        rw [if_neg (Nat.succ_ne_zero s)]
        exact congrArg some hEq
    · rintro ⟨hlt, hj⟩
      refine ⟨j, hlt, by omega, ?_⟩
      cases j with
      | zero => simp
      | succ s =>
        rcases hj with hj | hj
        · exact absurd hj (by omega)
        · simpa using hj
  refine ⟨hmain, ?_, ?_⟩
  · intro localDate msgs hne
    rw [hmain]
    cases msgs with
    | nil => exact absurd rfl hne
    | cons m rest => exact ⟨by simp, Or.inl rfl⟩
  · intro localDate dayStartMs now ts
    refine ⟨?_, ?_, ?_⟩
    · intro hEq
      unfold formatDayLabel
      rw [hEq]
      simp
    · intro hdiff
      unfold formatDayLabel
      rw [if_neg (by omega), if_pos hdiff]
    · intro h0 h1
      unfold formatDayLabel
      rw [if_neg h0, if_neg h1]

/-- Witness for C8: in a one-message list a separator precedes the first
message. -/
theorem day_separator_characterization_witness :
    0 ∈ daySeparatorIndices (fun ts => ⟨1970, 0, ts / 86400000⟩)
      [⟨1, "a", "x", 0, 5, none, none, none, none⟩] :=
  day_separator_characterization.2.1 _ _ (by simp)

/-! ### `safeDisconnect` (C1) -/

/-- C1. `safeDisconnect` attempts `device.complete()` on every execution
path and never itself throws; when `device.disconnect()` throws with a
message containing "not a function", "already been closed", or "locked",
the writable stream close is attempted, and the captured Bluetooth device's
GATT is disconnected when it is still connected. -/
theorem safeDisconnect_spec :
    (∀ d : MeshDeviceModel, DEffect.complete ∈ (safeDisconnect d).1)
    ∧ (∀ d : MeshDeviceModel, (safeDisconnect d).2 = false)
    ∧ (∀ (d : MeshDeviceModel) (msg : String), d.disconnectOutcome = some msg →
        quirkMessage msg = true →
        DEffect.closeToDevice ∈ (safeDisconnect d).1
        ∧ (capturedGattConnected d.btDevice = true →
            DEffect.gattDisconnectCall ∈ (safeDisconnect d).1)) := by
  refine ⟨?_, ?_, ?_⟩
  · intro d
    unfold safeDisconnect
    cases hdo : d.disconnectOutcome with
    | none => simp
    | some msg =>
      cases hq : quirkMessage msg with
      | false => simp [hq]
      | true =>
        cases hg : capturedGattConnected d.btDevice <;> simp [hq, hg]
  · intro d
    unfold safeDisconnect
    cases hdo : d.disconnectOutcome with
    | none => simp
    | some msg =>
      cases hq : quirkMessage msg with
      | false => simp [hq]
      | true => simp [hq]
  · intro d msg hdo hq
    unfold safeDisconnect
    rw [hdo]
    refine ⟨by simp [hq], ?_⟩
    intro hg
    simp [hq, hg]

/-- Witness for C1: a disconnect throwing "device.disconnect is not a
function" with a captured connected GATT leads to both the stream close and
the GATT disconnect being attempted. -/
theorem safeDisconnect_spec_witness :
    DEffect.closeToDevice ∈
      (safeDisconnect ⟨some "device.disconnect is not a function", false,
        some ⟨1, some ⟨true, false⟩⟩, false⟩).1
    ∧ DEffect.gattDisconnectCall ∈
      (safeDisconnect ⟨some "device.disconnect is not a function", false,
        some ⟨1, some ⟨true, false⟩⟩, false⟩).1 := by
  have h := safeDisconnect_spec.2.2
    ⟨some "device.disconnect is not a function", false,
      some ⟨1, some ⟨true, false⟩⟩, false⟩
    "device.disconnect is not a function" rfl (by decide)
  exact ⟨h.1, h.2 (by decide)⟩

/-! ### `reconnectBle` (C2) -/

/-- C2. `reconnectBle` throws when no previously-granted device has a GATT
object; otherwise its target is a device with a disconnected GATT when one
exists (falling back to the devices-with-GATT search), a still-connected
target GATT is force-disconnected with a 500 ms wait before the transport is
created (and nothing is done to an already disconnected one), and it throws
when the library exposes neither `createFromDevice` nor `prepareConnection`
or when the exposed method returns no transport. -/
theorem reconnectBle_spec :
    (∀ env : BleEnv, (∀ d ∈ env.devices, d.gatt = none) →
        ∃ e, reconnectBle env = Except.error e)
    ∧ (∀ env : BleEnv, ∀ d0 ∈ env.devices, hasDisconnectedGatt d0 = true →
        ∃ d1, bleTarget env.devices = some d1 ∧ hasDisconnectedGatt d1 = true)
    ∧ (∀ env : BleEnv, (∀ d ∈ env.devices, hasDisconnectedGatt d = false) →
        bleTarget env.devices = env.devices.find? hasGatt)
    ∧ (∀ (env : BleEnv) (out : ReconnectOutcome),
        reconnectBle env = Except.ok out →
        bleTarget env.devices = some out.target
        ∧ (gattConnected out.target = true →
            out.effects = [RcEffect.gattDisconnect, RcEffect.sleep 500])
        ∧ (gattConnected out.target = false → out.effects = []))
    ∧ (∀ env : BleEnv, env.hasCreateFromDevice = false →
        env.hasPrepareConnection = false →
        ∃ e, reconnectBle env = Except.error e)
    ∧ (∀ env : BleEnv, env.hasCreateFromDevice = true →
        env.createFromDeviceResult = none →
        ∃ e, reconnectBle env = Except.error e)
    ∧ (∀ env : BleEnv, env.hasCreateFromDevice = false →
        env.hasPrepareConnection = true → env.prepareConnectionResult = none →
        ∃ e, reconnectBle env = Except.error e) := by
  refine ⟨?_, ?_, ?_, ?_, ?_, ?_, ?_⟩
  · intro env hall
    have h1 : env.devices.find? hasDisconnectedGatt = none := by
      rw [List.find?_eq_none]
      intro d hd
      simp [hasDisconnectedGatt, hall d hd]
    have h2 : env.devices.find? hasGatt = none := by
      rw [List.find?_eq_none]
      intro d hd
      simp [hasGatt, hall d hd]
    have hT : bleTarget env.devices = none := by
      simp [bleTarget, h1, h2, Option.orElse]
    exact ⟨"No previously connected BLE device found for reconnection", by
      unfold reconnectBle
      rw [hT]⟩
  · intro env d0 hd0 hdis
    have hsome : (env.devices.find? hasDisconnectedGatt).isSome := by
      rw [List.find?_isSome]
      exact ⟨d0, hd0, hdis⟩
    rcases Option.isSome_iff_exists.mp hsome with ⟨d1, hd1⟩
    exact ⟨d1, by simp [bleTarget, hd1, Option.orElse], List.find?_some hd1⟩
  · intro env hall
    have h1 : env.devices.find? hasDisconnectedGatt = none := by
      rw [List.find?_eq_none]
      intro d hd
      simp [hall d hd]
    simp [bleTarget, h1, Option.orElse]
  · intro env out hok
    unfold reconnectBle at hok
    cases hT : bleTarget env.devices with
    | none => rw [hT] at hok; exact absurd hok (by simp)
    | some target =>
      rw [hT] at hok
      by_cases hC : env.hasCreateFromDevice = true
      · cases hR : env.createFromDeviceResult with
        | none => rw [hC, hR] at hok; simp at hok
        | some t =>
          rw [hC, hR] at hok
          simp at hok
          cases hG : gattConnected target <;>
            simp [hG] at hok <;>
            · rw [← hok]
              simp [hG]
      · rw [Bool.not_eq_true] at hC
        by_cases hP : env.hasPrepareConnection = true
        · cases hR : env.prepareConnectionResult with
          | none => rw [hC, hP, hR] at hok; simp at hok
          | some t =>
            rw [hC, hP, hR] at hok
            simp at hok
            cases hG : gattConnected target <;>
              simp [hG] at hok <;>
              · rw [← hok]
                simp [hG]
        · rw [Bool.not_eq_true] at hP
          rw [hC, hP] at hok
          simp at hok
  · intro env hC hP
    unfold reconnectBle
    cases hT : bleTarget env.devices with
    | none => exact ⟨_, rfl⟩
    | some target =>
      rw [hC, hP]
      exact ⟨_, rfl⟩
  · intro env hC hR
    unfold reconnectBle
    cases hT : bleTarget env.devices with
    | none => exact ⟨_, rfl⟩
    | some target =>
      rw [hC, hR]
      exact ⟨_, rfl⟩
  · intro env hC hP hR
    unfold reconnectBle
    cases hT : bleTarget env.devices with
    | none => exact ⟨_, rfl⟩
    | some target =>
      rw [hC, hP, hR]
      exact ⟨_, rfl⟩

/-- Witness for C2: with one connected-GATT device granted and a library
exposing `createFromDevice`, reconnection selects that device and
force-disconnects its GATT with the 500 ms wait. -/
theorem reconnectBle_spec_witness :
    bleTarget [(⟨1, some ⟨true, false⟩⟩ : BleDevice)] =
      some ⟨1, some ⟨true, false⟩⟩
    ∧ (⟨⟨1, some ⟨true, false⟩⟩, ⟨7⟩,
        [RcEffect.gattDisconnect, RcEffect.sleep 500]⟩ :
          ReconnectOutcome).effects =
      [RcEffect.gattDisconnect, RcEffect.sleep 500] := by
  have h := reconnectBle_spec.2.2.2.1
    ⟨[⟨1, some ⟨true, false⟩⟩], true, false, some ⟨7⟩, none⟩
    ⟨⟨1, some ⟨true, false⟩⟩, ⟨7⟩,
      [RcEffect.gattDisconnect, RcEffect.sleep 500]⟩ rfl
  exact ⟨h.1, h.2.1 rfl⟩

/-! ### `createConnection` (C3) -/

theorem head?_dropWhile_false (p : Char → Bool) (l : List Char) :
    ∀ c, (l.dropWhile p).head? = some c → p c = false := by
  induction l with
  | nil => intro c h; simp at h
  | cons a rest ih =>
    intro c h
    by_cases hp : p a = true
    · rw [List.dropWhile_cons_of_pos hp] at h
      exact ih c h
    · rw [Bool.not_eq_true] at hp
      rw [List.dropWhile_cons_of_neg (by simp [hp])] at h
      simp at h
      rw [← h]
      exact hp

theorem stripTrailingSlashes_no_trailing (l : List Char) :
    (stripTrailingSlashes l).getLast? ≠ some '/' := by
  unfold stripTrailingSlashes
  rw [List.getLast?_reverse]
  intro h
  have := head?_dropWhile_false _ _ _ h
  simp at this

/-- C3. `createConnection` dispatches `"ble"` to the Web Bluetooth transport,
`"serial"` to the Web Serial transport at 115200 baud, `"http"` to the HTTP
transport, and throws on any other type; for `"http"` it throws when no
address is supplied, and otherwise passes the trimmed address with one
leading `http://`/`https://` prefix and all trailing slashes stripped, with
TLS enabled iff the trimmed address starts with `https://`. -/
theorem createConnection_spec :
    (∀ (addr : Option String) (gd : Option (List BleDevice)),
        ∃ cap, createConnection "ble" addr gd = Except.ok (TransportSpec.bleT cap))
    ∧ (∀ (addr : Option String) (gd : Option (List BleDevice)),
        createConnection "serial" addr gd =
          Except.ok (TransportSpec.serialT 115200))
    ∧ (∀ gd : Option (List BleDevice),
        createConnection "http" none gd = Except.error "HTTP address required"
        ∧ createConnection "http" (some "") gd =
            Except.error "HTTP address required")
    ∧ (∀ (a : String) (gd : Option (List BleDevice)), a ≠ "" →
        createConnection "http" (some a) gd =
          Except.ok (TransportSpec.httpT
            (String.mk (stripTrailingSlashes (stripProtocol (trimChars a.data))))
            (startsWithB (trimChars a.data) "https://".data)))
    ∧ (∀ (ctype : String) (addr : Option String) (gd : Option (List BleDevice)),
        ctype ≠ "ble" → ctype ≠ "serial" → ctype ≠ "http" →
        createConnection ctype addr gd =
          Except.error ("Unknown connection type: " ++ ctype))
    ∧ (∀ (a : String) (gd : Option (List BleDevice)) (h : String) (tls : Bool),
        createConnection "http" (some a) gd =
          Except.ok (TransportSpec.httpT h tls) →
        h.data.getLast? ≠ some '/') := by
  refine ⟨?_, ?_, ?_, ?_, ?_, ?_⟩
  · intro addr gd
    exact ⟨_, rfl⟩
  · intro addr gd
    rfl
  · intro gd
    exact ⟨rfl, rfl⟩
  · intro a gd ha
    unfold createConnection
    rw [if_neg (by decide), if_neg (by decide), if_pos rfl]
    simp only
    rw [if_neg ha]
  · intro ctype addr gd hb hs hh
    unfold createConnection
    rw [if_neg hb, if_neg hs, if_neg hh]
  · intro a gd h tls hok
    unfold createConnection at hok
    rw [if_neg (by decide), if_neg (by decide), if_pos rfl] at hok
    by_cases ha : a = ""
    · subst ha
      simp at hok
    · simp only at hok
      rw [if_neg ha] at hok
      simp at hok
      rw [← hok.1]
      exact stripTrailingSlashes_no_trailing _

/-- Witness for C3: `https://node.local/` yields TLS with host `node.local`,
and an unknown type is rejected. -/
theorem createConnection_spec_witness :
    createConnection "http" (some "https://node.local/") none =
      Except.ok (TransportSpec.httpT "node.local" true)
    ∧ createConnection "tcp" none none =
      Except.error "Unknown connection type: tcp" := by
  constructor
  · rw [createConnection_spec.2.2.2.1 "https://node.local/" none (by decide)]
    rfl
  · exact createConnection_spec.2.2.2.2.1 "tcp" none none
      (by decide) (by decide) (by decide)

/-! ### Admin confirmation flow (C4) -/

/-- C4. A device handler is invoked only by the confirm press (and then it is
exactly the pending action's handler, which is cleared); Cancel and the
backdrop click clear the pending action without invoking anything; command
clicks only (re)fill the single pending-action slot and never invoke a
handler, so at most one action is ever pending. -/
theorem admin_confirmation_spec :
    (∀ (s : AdminState) (e : AdminEvent) (h : AdminHandler),
        (adminStep s e).2 = some h →
          e = AdminEvent.confirmPress
          ∧ ∃ p, s.pendingAction = some p ∧ p.handler = h)
    ∧ (∀ s : AdminState,
        adminStep s AdminEvent.cancelPress = (⟨none⟩, none)
        ∧ adminStep s AdminEvent.backdropClick = (⟨none⟩, none))
    ∧ (∀ (s : AdminState) (p : PendingAction), s.pendingAction = some p →
        adminStep s AdminEvent.confirmPress = (⟨none⟩, some p.handler))
    ∧ (∀ s : AdminState, adminStep s AdminEvent.confirmPress ≠ (s, none) →
        s.pendingAction ≠ none)
    ∧ (∀ s : AdminState,
        (adminStep s AdminEvent.clickReboot =
          (⟨some ⟨"Reboot", false, AdminHandler.hReboot 2⟩⟩, none))
        ∧ (adminStep s AdminEvent.clickShutdown =
          (⟨some ⟨"Shutdown", false, AdminHandler.hShutdown 2⟩⟩, none))
        ∧ (adminStep s AdminEvent.clickResetNodeDb =
          (⟨some ⟨"Reset NodeDB", false, AdminHandler.hResetNodeDb⟩⟩, none))
        ∧ (adminStep s AdminEvent.clickFactoryReset =
          (⟨some ⟨"Factory Reset", true, AdminHandler.hFactoryReset⟩⟩, none))
        ∧ (∀ t : Nat, t ≠ 0 → adminStep s (AdminEvent.clickRemoveNode t) =
          (⟨some ⟨"Remove Node", false, AdminHandler.hRemoveNode t⟩⟩, none))
        ∧ (adminStep s (AdminEvent.clickRemoveNode 0) = (s, none))) := by
  refine ⟨?_, ?_, ?_, ?_, ?_⟩
  · intro s e h hinv
    cases e with
    | clickReboot => simp [adminStep] at hinv
    | clickShutdown => simp [adminStep] at hinv
    | clickResetNodeDb => simp [adminStep] at hinv
    | clickFactoryReset => simp [adminStep] at hinv
    | clickRemoveNode t =>
      by_cases ht : t ≠ 0
      · simp [adminStep, ht] at hinv
      · rw [not_not] at ht
        subst ht
        simp [adminStep] at hinv
    | confirmPress =>
      refine ⟨rfl, ?_⟩
      cases hp : s.pendingAction with
      | none => rw [show adminStep s AdminEvent.confirmPress = (s, none) from by
          unfold adminStep; rw [hp]] at hinv; simp at hinv
      | some p =>
        refine ⟨p, rfl, ?_⟩
        rw [show adminStep s AdminEvent.confirmPress = (⟨none⟩, some p.handler)
          from by unfold adminStep; rw [hp]] at hinv
        simpa using hinv
    | cancelPress => simp [adminStep] at hinv
    | backdropClick => simp [adminStep] at hinv
  · intro s
    exact ⟨rfl, rfl⟩
  · intro s p hp
    unfold adminStep
    rw [hp]
  · intro s hne
    intro hp
    apply hne
    unfold adminStep
    rw [hp]
  · intro s
    refine ⟨rfl, rfl, rfl, rfl, ?_, ?_⟩
    · intro t ht
      simp [adminStep, ht]
    · simp [adminStep]

/-- Witness for C4: confirming a pending factory reset invokes exactly the
factory-reset handler and clears the slot. -/
theorem admin_confirmation_spec_witness :
    adminStep ⟨some ⟨"Factory Reset", true, AdminHandler.hFactoryReset⟩⟩
      AdminEvent.confirmPress = (⟨none⟩, some AdminHandler.hFactoryReset) :=
  admin_confirmation_spec.2.2.1
    ⟨some ⟨"Factory Reset", true, AdminHandler.hFactoryReset⟩⟩
    ⟨"Factory Reset", true, AdminHandler.hFactoryReset⟩ rfl

/-! ### Map view persistence and auto-fit (C5) -/

theorem attemptFit_state (s : MapSession) (ps : List (Int × Int)) :
    (attemptFit s ps).1 = s ∨
      (attemptFit s ps).1 = { s with lastFittedCount := ps.length } := by
  unfold attemptFit
  by_cases h1 : s.userHasInteracted = true
  · simp [h1]
  · rw [Bool.not_eq_true] at h1
    by_cases h2 : ps.length = 0
    · simp [h1, h2]
    · by_cases h3 : ps.length ≤ s.lastFittedCount
      · simp [h1, h2, h3]
      · rw [if_neg (by simp [h1]), if_neg h2, if_neg h3]
        cases ps with
        | nil => exact absurd rfl h2
        | cons p rest =>
          cases rest with
          | nil => exact Or.inr rfl
          | cons q rrest => exact Or.inr rfl

theorem attemptFit_preserves (s : MapSession) (ps : List (Int × Int)) :
    (attemptFit s ps).1.savedCenter = s.savedCenter
    ∧ (attemptFit s ps).1.savedZoom = s.savedZoom
    ∧ (attemptFit s ps).1.userHasInteracted = s.userHasInteracted
    ∧ (attemptFit s ps).1.view = s.view := by
  rcases attemptFit_state s ps with h | h <;> rw [h] <;> exact ⟨rfl, rfl, rfl, rfl⟩

theorem attemptFit_fires (s : MapSession) (ps : List (Int × Int)) :
    (attemptFit s ps).2 ≠ none →
      s.userHasInteracted = false ∧ 0 < ps.length
      ∧ s.lastFittedCount < ps.length
      ∧ (attemptFit s ps).1.lastFittedCount = ps.length := by
  intro hfit
  unfold attemptFit at hfit ⊢
  by_cases h1 : s.userHasInteracted = true
  · simp [h1] at hfit
  · rw [Bool.not_eq_true] at h1
    by_cases h2 : ps.length = 0
    · simp [h1, h2] at hfit
    · by_cases h3 : ps.length ≤ s.lastFittedCount
      · simp [h1, h2, h3] at hfit
      · refine ⟨h1, by omega, by omega, ?_⟩
        rw [if_neg (by simp [h1]), if_neg h2, if_neg h3]
        cases ps with
        | nil => exact absurd rfl h2
        | cons p rest =>
          cases rest with
          | nil => rfl
          | cons q rrest => rfl

theorem attemptFit_blocked (s : MapSession) (ps : List (Int × Int))
    (h : s.userHasInteracted = true) : attemptFit s ps = (s, none) := by
  unfold attemptFit
  simp [h]

/-- Counterexample to C5 as stated: with the user never having interacted,
the fitter flies to the two positioned nodes, and after a remount of the map
panel (which recreates `MapFitter` and its `lastFittedCount` ref) it flies
again for the very same two nodes — the positioned-node count did not
increase, yet auto-fit repositioned the view a second time. -/
theorem map_autofit_counterexample :
    (mapStep initialMapSession
      (MapEvent.positionsChanged [((10 : Int), (20 : Int)), (30, 40)])).2 =
        some (FitAction.flyToBounds [(10, 20), (30, 40)])
    ∧ (mapStep initialMapSession
        (MapEvent.positionsChanged [((10 : Int), (20 : Int)), (30, 40)])).1.lastFittedCount = 2
    ∧ (mapStep (mapStep initialMapSession
        (MapEvent.positionsChanged [((10 : Int), (20 : Int)), (30, 40)])).1
        (MapEvent.remount [(10, 20), (30, 40)])).2 =
        some (FitAction.flyToBounds [(10, 20), (30, 40)])
    ∧ (mapStep (mapStep initialMapSession
        (MapEvent.positionsChanged [((10 : Int), (20 : Int)), (30, 40)])).1
        (MapEvent.remount [(10, 20), (30, 40)])).1.userHasInteracted = false :=
  ⟨rfl, rfl, rfl, rfl⟩

/-- C5 (amended). Once the user has manually panned or zoomed, no step of the
session ever auto-fits again and the interaction flag persists; interaction
saves the view, and every remount with a saved view initializes from it (and
in any session starting from the initial state, an interacted state always
has a saved view); auto-fit fires only when the user has not interacted and
the positioned-node count strictly exceeds the fitted-count tracker, which it
then updates — the tracker being reset on each remount, this is "strictly
increasing counts" within a mount. -/
theorem map_view_spec :
    (∀ (s : MapSession) (e : MapEvent), s.userHasInteracted = true →
        (mapStep s e).2 = none ∧ (mapStep s e).1.userHasInteracted = true)
    ∧ (∀ (s : MapSession) (es : List MapEvent), s.userHasInteracted = true →
        (runMap s es).userHasInteracted = true)
    ∧ (∀ (s : MapSession) (c : Int × Int) (z : Nat),
        (mapStep s (MapEvent.userMoveZoom c z)).1.savedCenter = some c
        ∧ (mapStep s (MapEvent.userMoveZoom c z)).1.savedZoom = some z
        ∧ (mapStep s (MapEvent.userMoveZoom c z)).1.userHasInteracted = true)
    ∧ (∀ (s : MapSession) (ps : List (Int × Int)) (c : Int × Int) (z : Nat),
        s.savedCenter = some c → s.savedZoom = some z →
        (mapStep s (MapEvent.remount ps)).1.view = ⟨c, z⟩)
    ∧ (∀ es : List MapEvent,
        (runMap initialMapSession es).userHasInteracted = true →
        ∃ c z, (runMap initialMapSession es).savedCenter = some c
          ∧ (runMap initialMapSession es).savedZoom = some z)
    ∧ (∀ (s : MapSession) (ps : List (Int × Int)),
        (mapStep s (MapEvent.positionsChanged ps)).2 ≠ none →
          s.userHasInteracted = false ∧ 0 < ps.length
          ∧ s.lastFittedCount < ps.length
          ∧ (mapStep s (MapEvent.positionsChanged ps)).1.lastFittedCount =
              ps.length)
    ∧ (∀ (s : MapSession) (ps : List (Int × Int)),
        (mapStep s (MapEvent.remount ps)).2 ≠ none →
          s.userHasInteracted = false ∧ 0 < ps.length) := by
  have hstep : ∀ (s : MapSession) (e : MapEvent), s.userHasInteracted = true →
      (mapStep s e).2 = none ∧ (mapStep s e).1.userHasInteracted = true := by
    intro s e h
    cases e with
    | userMoveZoom c z => exact ⟨rfl, rfl⟩
    | positionsChanged ps =>
      rw [show mapStep s (MapEvent.positionsChanged ps) = attemptFit s ps from rfl,
        attemptFit_blocked s ps h]
      exact ⟨rfl, h⟩
    | remount ps =>
      have h2 : (remountState s ps).userHasInteracted = true := h
      rw [show mapStep s (MapEvent.remount ps) =
        attemptFit (remountState s ps) ps from rfl,
        attemptFit_blocked (remountState s ps) ps h2]
      exact ⟨rfl, h⟩
  have hrun : ∀ (es : List MapEvent) (s : MapSession), s.userHasInteracted = true →
      (runMap s es).userHasInteracted = true := by
    intro es
    induction es with
    | nil => intro s h; exact h
    | cons e rest ih =>
      intro s h
      rw [runMap]
      exact ih _ (hstep s e h).2
  have hsaved : ∀ (es : List MapEvent) (s : MapSession),
      (s.userHasInteracted = true →
        ∃ c z, s.savedCenter = some c ∧ s.savedZoom = some z) →
      ((runMap s es).userHasInteracted = true →
        ∃ c z, (runMap s es).savedCenter = some c
          ∧ (runMap s es).savedZoom = some z) := by
    intro es
    induction es with
    | nil => intro s h; exact h
    | cons e rest ih =>
      intro s h
      rw [runMap]
      apply ih
      cases e with
      | userMoveZoom c z => intro _; exact ⟨c, z, rfl, rfl⟩
      | positionsChanged ps =>
        intro hint
        have hp := attemptFit_preserves s ps
        rw [show (mapStep s (MapEvent.positionsChanged ps)).1 =
          (attemptFit s ps).1 from rfl] at hint ⊢
        rw [hp.1, hp.2.1]
        exact h (hp.2.2.1 ▸ hint)
      | remount ps =>
        intro hint
        have hp := attemptFit_preserves (remountState s ps) ps
        rw [show (mapStep s (MapEvent.remount ps)).1 =
          (attemptFit (remountState s ps) ps).1 from rfl] at hint ⊢
        rw [hp.1, hp.2.1]
        have h3 : (remountState s ps).userHasInteracted = true := hp.2.2.1 ▸ hint
        exact h h3
  refine ⟨hstep, fun s es => hrun es s, ?_, ?_, ?_, ?_, ?_⟩
  · intro s c z
    exact ⟨rfl, rfl, rfl⟩
  · intro s ps c z hc hz
    have hp := attemptFit_preserves (remountState s ps) ps
    rw [show (mapStep s (MapEvent.remount ps)).1 =
      (attemptFit (remountState s ps) ps).1 from rfl, hp.2.2.2]
    simp [remountState, hc, hz]
  · intro es
    exact hsaved es initialMapSession (by intro h; simp [initialMapSession] at h)
  · intro s ps hfit
    have h := attemptFit_fires s ps hfit
    exact ⟨h.1, h.2.1, h.2.2.1, h.2.2.2⟩
  · intro s ps hfit
    have h := attemptFit_fires (remountState s ps) ps hfit
    exact ⟨h.1, h.2.1⟩

/-- Witness for C5 (amended): a remount after the user saved view
`((5, 6), zoom 9)` initializes the map from that view. -/
theorem map_view_spec_witness :
    (mapStep (⟨some (5, 6), some 9, true, 3, ⟨(0, 0), 12⟩⟩ : MapSession)
      (MapEvent.remount [])).1.view = ⟨(5, 6), 9⟩ :=
  map_view_spec.2.2.2.1 ⟨some (5, 6), some 9, true, 3, ⟨(0, 0), 12⟩⟩ [] (5, 6) 9
    rfl rfl

/-! ### Map markers (C9) -/

/-- C9. A node is rendered as a marker iff both its latitude and longitude
are nonzero; a rendered marker's icon color is the status color (green
online, yellow stale, gray offline) of the node's status computed from its
last-heard time; and the local node gets the larger (32 px vs 25 px) star
icon at z-index offset 1000 while every other node gets a circle at offset 0. -/
theorem map_markers_spec :
    (∀ (gs : Nat → NodeStatus) (nodes : List MeshNode) (my : Nat)
        (n : MeshNode), n ∈ nodes → n.latitude ≠ 0 → n.longitude ≠ 0 →
        markerOf gs my n ∈ renderMarkers gs nodes my)
    ∧ (∀ (gs : Nat → NodeStatus) (nodes : List MeshNode) (my : Nat)
        (mk : MarkerSpec), mk ∈ renderMarkers gs nodes my →
        ∃ n, n ∈ nodes ∧ n.latitude ≠ 0 ∧ n.longitude ≠ 0
          ∧ mk = markerOf gs my n ∧ mk.position = (n.latitude, n.longitude))
    ∧ (∀ (gs : Nat → NodeStatus) (my : Nat) (n : MeshNode),
        (markerOf gs my n).icon.color = statusColor (gs n.last_heard))
    ∧ (statusColor NodeStatus.online = "#22c55e"
        ∧ statusColor NodeStatus.stale = "#eab308"
        ∧ statusColor NodeStatus.offline = "#6b7280")
    ∧ (∀ (gs : Nat → NodeStatus) (my : Nat) (n : MeshNode), n.node_id = my →
        (markerOf gs my n).icon.star = true
        ∧ (markerOf gs my n).icon.size = 32
        ∧ (markerOf gs my n).zIndexOffset = 1000)
    ∧ (∀ (gs : Nat → NodeStatus) (my : Nat) (n : MeshNode), n.node_id ≠ my →
        (markerOf gs my n).icon.star = false
        ∧ (markerOf gs my n).icon.size = 25
        ∧ (markerOf gs my n).zIndexOffset = 0)
    ∧ (∀ (gs : Nat → NodeStatus) (my : Nat) (n m : MeshNode),
        n.node_id = my → m.node_id ≠ my →
        (markerOf gs my m).icon.size < (markerOf gs my n).icon.size
        ∧ (markerOf gs my m).zIndexOffset < (markerOf gs my n).zIndexOffset) := by
  refine ⟨?_, ?_, ?_, ⟨rfl, rfl, rfl⟩, ?_, ?_, ?_⟩
  · intro gs nodes my n hn hlat hlng
    unfold renderMarkers nodesWithPosition
    exact List.mem_map_of_mem _ (List.mem_filter.mpr ⟨hn, by simp [hlat, hlng]⟩)
  · intro gs nodes my mk hmk
    unfold renderMarkers nodesWithPosition at hmk
    rcases List.mem_map.mp hmk with ⟨n, hn, hEq⟩
    have hf := List.mem_filter.mp hn
    have hcond := hf.2
    simp at hcond
    refine ⟨n, hf.1, hcond.1, hcond.2, hEq.symm, ?_⟩
    rw [← hEq]
    rfl

  · intro gs my n
    cases hst : gs n.last_heard <;>
      cases hself : (n.node_id == my) <;>
        simp [markerOf, getMarkerIcon, MARKERS, createMarkerIcon, statusColor,
          hself, hst]
  · intro gs my n h
    have hself : (n.node_id == my) = true := by simp [h]
    exact ⟨by cases hst : gs n.last_heard <;>
        simp [markerOf, getMarkerIcon, MARKERS, createMarkerIcon, hself, hst],
      by cases hst : gs n.last_heard <;>
        simp [markerOf, getMarkerIcon, MARKERS, createMarkerIcon, hself, hst],
      by simp [markerOf, hself]⟩
  · intro gs my n h
    have hself : (n.node_id == my) = false := by simp [h]
    exact ⟨by cases hst : gs n.last_heard <;>
        simp [markerOf, getMarkerIcon, MARKERS, createMarkerIcon, hself, hst],
      by cases hst : gs n.last_heard <;>
        simp [markerOf, getMarkerIcon, MARKERS, createMarkerIcon, hself, hst],
      by simp [markerOf, hself]⟩
  · intro gs my n m hn hm
    have hsn : (n.node_id == my) = true := by simp [hn]
    have hsm : (m.node_id == my) = false := by simp [hm]
    constructor
    · cases hstn : gs n.last_heard <;> cases hstm : gs m.last_heard <;>
        simp [markerOf, getMarkerIcon, MARKERS, createMarkerIcon, hsn, hsm,
          hstn, hstm]
    · simp [markerOf, hsn, hsm]

/-- Witness for C9: a positioned non-self node renders as a 25 px gray
circle marker at offset 0 when its status is offline. -/
theorem map_markers_spec_witness :
    markerOf (fun _ => NodeStatus.offline) 1 ⟨2, "n", "n", 3, 4, 80, 0, 50⟩ ∈
      renderMarkers (fun _ => NodeStatus.offline)
        [⟨2, "n", "n", 3, 4, 80, 0, 50⟩] 1
    ∧ (markerOf (fun _ => NodeStatus.offline) 1
        ⟨2, "n", "n", 3, 4, 80, 0, 50⟩).icon.size = 25 := by
  constructor
  · exact map_markers_spec.1 (fun _ => NodeStatus.offline)
      [⟨2, "n", "n", 3, 4, 80, 0, 50⟩] 1 ⟨2, "n", "n", 3, 4, 80, 0, 50⟩
      (by simp) (by decide) (by decide)
  · exact (map_markers_spec.2.2.2.2.2.1 (fun _ => NodeStatus.offline) 1
      ⟨2, "n", "n", 3, 4, 80, 0, 50⟩ (by decide)).2.1

/-! ### DM tab persistence (C10) -/

theorem asNumList_map (tabs : List Int) :
    asNumList (tabs.map Json.num) = some tabs := by
  induction tabs with
  | nil => rfl
  | cons t rest ih => simp [asNumList, ih]

/-- C10. Persisting the open DM tab list under `electastic:openDmTabs` and
re-mounting restores exactly that list (round trip), other keys are
untouched; the initializer accepts a stored JSON array of numbers and falls
back to the empty list on a missing/unparsable value, a non-array value, or
an array holding any non-number. -/
theorem dm_tabs_persistence :
    (∀ (store : String → Option Json) (tabs : List Int),
        initialDmTabs (persistDmTabs store tabs) = tabs)
    ∧ (∀ (store : String → Option Json) (tabs : List Int) (k : String),
        k ≠ dmTabsKey → persistDmTabs store tabs k = store k)
    ∧ (loadDmTabs none = [])
    ∧ (∀ n : Int, loadDmTabs (some (Json.num n)) = [])
    ∧ (∀ s : String, loadDmTabs (some (Json.str s)) = [])
    ∧ (∀ b : Bool, loadDmTabs (some (Json.jbool b)) = [])
    ∧ (loadDmTabs (some Json.jnull) = [])
    ∧ (∀ xs : List Json, asNumList xs = none →
        loadDmTabs (some (Json.arr xs)) = [])
    ∧ (∀ (xs : List Json) (ns : List Int), asNumList xs = some ns →
        loadDmTabs (some (Json.arr xs)) = ns) := by
  refine ⟨?_, ?_, rfl, fun n => rfl, fun s => rfl, fun b => rfl, rfl, ?_, ?_⟩
  · intro store tabs
    unfold initialDmTabs persistDmTabs
    rw [if_pos rfl]
    show (match asNumList (List.map Json.num tabs) with
      | some ns => ns
      | none => []) = tabs
    rw [asNumList_map]
  · intro store tabs k hk
    unfold persistDmTabs
    rw [if_neg hk]
  · intro xs hxs
    show (match asNumList xs with
      | some ns => ns
      | none => []) = []
    rw [hxs]
  · intro xs ns hxs
    show (match asNumList xs with
      | some ns => ns
      | none => []) = ns
    rw [hxs]

/-- Witness for C10: the stored pair `[3, 17]` round-trips, and a stored
array containing a string falls back to the empty list. -/
theorem dm_tabs_persistence_witness :
    initialDmTabs (persistDmTabs (fun _ => none) [3, 17]) = [3, 17]
    ∧ loadDmTabs (some (Json.arr [Json.num 3, Json.str "x"])) = [] := by
  constructor
  · exact dm_tabs_persistence.1 (fun _ => none) [3, 17]
  · exact dm_tabs_persistence.2.2.2.2.2.2.2.1 [Json.num 3, Json.str "x"] rfl

end Electastic
